import Mathlib

/-!
Shallow embedding of the flocker Cinder block-device agent
(`flocker/node/agents/cinder.py` and its functional tests in
`flocker/node/agents/functional/test_cinder.py`).

The agent implementation itself is not part of the provided sources; only
its functional tests are.  Definitions below that embed the agent are
therefore modelled from the specification (their doc comments say so);
definitions embedding code that is present (`FakeTime`,
`OpenStackFixture.cleanup`) are translated from that code directly.

Conventions of the embedding:
* provider-side state (the cinder listing, the status a poll observes, the
  local device namespace) is passed explicitly;
* machine time is `Nat` (the tests drive time with integer increments);
* exceptions become `Except FlockerError`;
* the polling loops are written with explicit fuel so that every
  definition is executable; each theorem supplies enough fuel.
-/

/-- The closed error taxonomy of the agent: `TimeoutException` (carrying
elapsed time), `UnexpectedStateException` (carrying the observed status),
`UnattachedVolume`, `UnknownVolume`, plus a catch-all for provider-level
transport errors which the agent never wraps or suppresses. -/
inductive FlockerError where
  | timeout (elapsed : Nat)
  | unexpectedState (observed : String)
  | unattachedVolume
  | unknownVolume
  | providerError (message : String)
  deriving DecidableEq, Repr

deriving instance DecidableEq for Except

/-- A provider (cinder) volume record as the agent sees it: the native
identifier, the provider-reported status, the human-readable name under
the v1 attribute (`display_name`) or the v2 attribute (`name`), the
metadata key/value pairs, the attachment record, and the size. -/
structure CinderVolume where
  id : String
  status : String
  display_name : Option String
  name : Option String
  metadata : List (String × String)
  attached_to : Option String
  size : Nat
  deriving DecidableEq, Repr

/-- `FakeTime` from `test_cinder.py`: a deterministic clock whose `sleep`
advances the counter by exactly the slept duration. -/
structure FakeTime where
  _current_time : Nat
  deriving DecidableEq, Repr

/-- `FakeTime.time`: return the current counter. -/
def FakeTime.time (t : FakeTime) : Nat := t._current_time

/-- `FakeTime.sleep`: advance the counter by the slept interval. -/
def FakeTime.sleep (t : FakeTime) (interval : Nat) : FakeTime :=
  ⟨t._current_time + interval⟩

/-- Association-list lookup, used for volume metadata and for the symlink
directory of the device namespace. -/
def assocLookup (key : String) : List (String × String) → Option String
  | [] => none
  | (k, v) :: rest => if k = key then some v else assocLookup key rest

/-- Modelled from the spec: the metadata key under which the agent stores
the cluster-identifying tag (`cinder.py` is not in the sources; §3
"ClusterTag" only requires a fixed metadata key). -/
def CLUSTER_ID_LABEL : String := "flocker-cluster-id"

/-- The cluster tag carried by a volume, if any. -/
def clusterTag (v : CinderVolume) : Option String :=
  assocLookup CLUSTER_ID_LABEL v.metadata

/-- Modelled from the spec: probe for whichever name attribute the
provider API version exposes (v1 `display_name` or v2 `name`); absence of
both is "no name" rather than an error (§4.3). -/
def providerName (v : CinderVolume) : Option String :=
  match v.display_name with
  | some n => some n
  | none => v.name

/-- Whether a volume carries the naming convention used for volumes this
system created (a `flocker-` composed name, §4.3/§4.4). -/
def hasFlockerName (v : CinderVolume) : Bool :=
  match providerName v with
  | some n => n.startsWith "flocker-"
  | none => false

/-- Modelled from the spec: `_is_cluster_volume` of `cinder.py` (not in
the sources).  §4.3: a provider volume belongs to this cluster iff its
cluster tag matches the running cluster identity AND it carries the
Flocker naming convention. -/
def _is_cluster_volume (cluster_id : String) (v : CinderVolume) : Bool :=
  (clusterTag v == some cluster_id) && hasFlockerName v

/-- Modelled from the spec: `CinderBlockDeviceAPI.list_volumes` of
`cinder.py` (not in the sources), restricted to the cluster-ownership
filter the claims are about: keep exactly the volumes belonging to this
cluster (§4.3 `list_cluster_volumes`). -/
def list_volumes (cluster_id : String) (vols : List CinderVolume) :
    List CinderVolume :=
  vols.filter (_is_cluster_volume cluster_id)

/-- The two provider API versions, which expose the human-readable name
under different attribute names. -/
inductive ApiVersion where
  | v1
  | v2
  deriving DecidableEq, Repr

/-- `getattr(volume, volume.NAME_ATTR)` from the tests: v1 exposes the
name as `display_name`, v2 as `name`. -/
def NAME_ATTR (ver : ApiVersion) (v : CinderVolume) : Option String :=
  match ver with
  | ApiVersion.v1 => v.display_name
  | ApiVersion.v2 => v.name

/-- Modelled from the spec: `CinderBlockDeviceAPI.create_volume` of
`cinder.py` (not in the sources).  §4.4: issue the provider create,
embedding the name `"flocker-" ++ dataset_id` (under the attribute of the
provider API version in use) and the cluster tag as metadata, and return
immediately with the provider's initial transient state. -/
def create_volume (ver : ApiVersion) (cluster_id dataset_id vol_id : String)
    (size : Nat) : CinderVolume :=
  { id := vol_id
    status := "creating"
    display_name :=
      if ver = ApiVersion.v1 then some ("flocker-" ++ dataset_id) else none
    name :=
      if ver = ApiVersion.v2 then some ("flocker-" ++ dataset_id) else none
    metadata := [(CLUSTER_ID_LABEL, cluster_id)]
    attached_to := none
    size := size }

/-- Drop the transient states that precede the one just observed: once a
volume has reached a later transient state it may not go back to an
earlier one.  Modelled from the spec: §3 calls `transient_states` "an
acceptable convergence path" and the §8 conflict scenario requires a
volume that settles back from `attaching` to `available` to surface
`UnexpectedState` although `available` was in the original list. -/
def trimTransient (status : String) : List String → List String
  | [] => []
  | s :: rest => if s = status then s :: rest else trimTransient status rest

/-- What one call to the state waiter produced: the result (final status,
or error), how many polls (provider re-fetches) it performed, and the
clock time it consumed (`clock.now() - start` at return). -/
structure WaitOutcome where
  result : Except FlockerError String
  polls : Nat
  elapsed : Nat
  deriving DecidableEq, Repr

/-- Modelled from the spec: the polling loop of `wait_for_volume_state`
of `cinder.py` (not in the sources), §4.2.  `statuses n` is the status
the provider reports at the n-th poll.  Each iteration: re-fetch; on the
desired state, return; on a transient state, fail with `Timeout{elapsed}`
if the elapsed time has reached the limit, otherwise sleep for the poll
interval and retry with the transient path trimmed at the observed state;
on any other state, fail immediately with `UnexpectedState{observed}`.
`none` means the fuel ran out before the loop returned. -/
def waitLoop (statuses : Nat → String) (desired : String)
    (time_limit interval : Nat) :
    Nat → List String → Nat → Nat → Option WaitOutcome
  | 0, _, _, _ => none
  | fuel + 1, transient, polls, elapsed =>
    let status := statuses polls
    if status = desired then
      some ⟨Except.ok status, polls + 1, elapsed⟩
    else if status ∈ transient then
      if elapsed < time_limit then
        waitLoop statuses desired time_limit interval fuel
          (trimTransient status transient) (polls + 1) (elapsed + interval)
      else
        some ⟨Except.error (FlockerError.timeout elapsed), polls + 1, elapsed⟩
    else
      some ⟨Except.error (FlockerError.unexpectedState status),
            polls + 1, elapsed⟩

/-- Modelled from the spec: `wait_for_volume_state` of `cinder.py` (not
in the sources), §4.2: run the polling loop from `start = clock.now()`,
so with zero elapsed time and zero polls performed. -/
def wait_for_volume_state (statuses : Nat → String) (desired : String)
    (transient : List String) (time_limit interval fuel : Nat) :
    Option WaitOutcome :=
  waitLoop statuses desired time_limit interval fuel transient 0 0

/-- Modelled from the spec: the deletion-polling loop of
`CinderBlockDeviceAPI.destroy_volume` of `cinder.py` (not in the
sources), §4.4: after issuing the provider delete, poll the listing for
the volume's disappearance (`present n` says whether the n-th poll still
finds it); while it is present, compare `clock.time - start` with the
configured timeout: under the limit, sleep for the interval and retry;
at or over it, fail with `Timeout{elapsed}`.  Returns the outcome paired
with the final clock. -/
def destroyLoop (present : Nat → Bool) (time_limit interval start : Nat) :
    Nat → Nat → FakeTime → Option (Except FlockerError Unit × FakeTime)
  | 0, _, _ => none
  | fuel + 1, polls, clock =>
    if present polls then
      if clock.time - start < time_limit then
        destroyLoop present time_limit interval start fuel (polls + 1)
          (clock.sleep interval)
      else
        some (Except.error (FlockerError.timeout (clock.time - start)), clock)
    else
      some (Except.ok (), clock)

/-- Modelled from the spec: `CinderBlockDeviceAPI.destroy_volume` of
`cinder.py` (not in the sources), §4.4/§4.4, with the provider delete
call abstracted away (the test patches it to a no-op): a
`blockdevice_id` the provider does not recognize fails with
`UnknownVolume`; otherwise poll for disappearance from `start =
clock.time` within the configured timeout. -/
def destroy_volume (vols : List CinderVolume) (present : Nat → Bool)
    (time_limit interval fuel : Nat) (clock : FakeTime)
    (blockdevice_id : String) : Option (Except FlockerError Unit × FakeTime) :=
  if vols.any (fun v => v.id == blockdevice_id) then
    destroyLoop present time_limit interval clock.time fuel 0 clock
  else
    some (Except.error FlockerError.unknownVolume, clock)

/-- Modelled from the spec: `CinderBlockDeviceAPI.detach_volume` of
`cinder.py` (not in the sources).  §4.4: resolve the current attachment
and issue the detach (returned as the `(server, volume)` pair acted on);
an identifier the provider does not recognize fails with
`UnknownVolume`; a volume with no attachment record fails with
`UnattachedVolume`.  Per the fixture comment in `test_cinder.py`
("it expects all volumes to be flocker- volumes") and §4.3 ("foreign
volumes must never appear in any operation this system performs"), the
volume is resolved among the cluster-filtered listing only. -/
def detach_volume (cluster_id : String) (vols : List CinderVolume)
    (blockdevice_id : String) : Except FlockerError (String × String) :=
  match (list_volumes cluster_id vols).find?
      (fun v => v.id == blockdevice_id) with
  | none => Except.error FlockerError.unknownVolume
  | some v =>
    match v.attached_to with
    | none => Except.error FlockerError.unattachedVolume
    | some server => Except.ok (server, v.id)

/-- Modelled from the spec: `_nova_detach` of `cinder.py` (not in the
sources): the lower-level helper that detaches a raw cinder volume from a
server through the nova and cinder managers directly, with no
Flocker-naming requirement; an unattached volume fails with
`UnattachedVolume`, otherwise the `(server, volume)` detach is issued. -/
def _nova_detach (server_id : String) (v : CinderVolume) :
    Except FlockerError (String × String) :=
  match v.attached_to with
  | none => Except.error FlockerError.unattachedVolume
  | some _ => Except.ok (server_id, v.id)

/-- Modelled from the spec: `CinderBlockDeviceAPI.attach_volume` of
`cinder.py` (not in the sources), §4.4: an identifier the provider does
not recognize fails with `UnknownVolume`; otherwise the provider attach
is issued and the waiter converges on `in-use` tolerating the transient
path `available`, `attaching`. -/
def attach_volume (vols : List CinderVolume) (statuses : Nat → String)
    (time_limit interval fuel : Nat) (blockdevice_id instance_id : String) :
    Except FlockerError (Option WaitOutcome) :=
  if vols.any (fun v => v.id == blockdevice_id) then
    Except.ok (wait_for_volume_state statuses "in-use"
      ["available", "attaching"] time_limit interval fuel)
  else
    Except.error FlockerError.unknownVolume

/-- The local device namespace of the compute instance: the device nodes
under `/dev`, and the stable by-id symlinks (link path paired with the
device node it resolves to). -/
structure DeviceState where
  nodes : List String
  links : List (String × String)
  deriving DecidableEq, Repr

/-- The stable per-volume symlink path: the well-known device-identity
directory, the fixed `virtio-` prefix, and the volume identifier
truncated to 20 characters (`/dev/disk/by-id/virtio-<vol_id[:20]>`,
`test_cinder.py` line 617). -/
def byIdLinkPath (vol_id : String) : String :=
  "/dev/disk/by-id/virtio-" ++ vol_id.take 20

/-- Resolve a path against the symlink directory: a symlink resolves to
its target device node, anything else to itself. -/
def realpath (st : DeviceState) (p : String) : String :=
  match assocLookup p st.links with
  | some target => target
  | none => p

/-- Modelled from the spec: `CinderBlockDeviceAPI.get_device_path` of
`cinder.py` (not in the sources), §4.5: an identifier the provider does
not recognize fails with `UnknownVolume`; otherwise, when the stable
per-volume symlink is present, return its resolved target; when the
symlink is absent (e.g. the device-naming service has not run), fail
with `UnattachedVolume`. -/
def get_device_path (vols : List CinderVolume) (st : DeviceState)
    (blockdevice_id : String) : Except FlockerError String :=
  if vols.any (fun v => v.id == blockdevice_id) then
    match assocLookup (byIdLinkPath blockdevice_id) st.links with
    | some _ => Except.ok (realpath st (byIdLinkPath blockdevice_id))
    | none => Except.error FlockerError.unattachedVolume
  else
    Except.error FlockerError.unknownVolume

/-- The effect of a provider attach on the guest device namespace: one
new device node appears; when the device-naming service (udev) is
running it also materializes the stable by-id symlink to that node, and
when it is suspended it does not. -/
def attachDeviceEffect (st : DeviceState) (vol_id new_node : String)
    (udev_running : Bool) : DeviceState :=
  { nodes := st.nodes ++ [new_node]
    links :=
      if udev_running then (byIdLinkPath vol_id, new_node) :: st.links
      else st.links }

/-- The destroy half of `OpenStackFixture.cleanup` (`test_cinder.py`
lines 388-391): `destroy_volume` is attempted and exactly
`UnknownVolume` is caught and ignored; any other error propagates. -/
def cleanupDestroyStep (destroy_outcome : Except FlockerError Unit) :
    Except FlockerError Unit :=
  match destroy_outcome with
  | Except.ok _ => Except.ok ()
  | Except.error FlockerError.unknownVolume => Except.ok ()
  | Except.error e => Except.error e

/-- `OpenStackFixture.cleanup` (`test_cinder.py` lines 376-391), over the
outcomes of the two operations it sequences: the `_nova_detach` attempt,
around which exactly `UnattachedVolume` is caught and ignored, followed
by the `destroy_volume` attempt, around which exactly `UnknownVolume` is
caught and ignored; any other error propagates unmodified. -/
def cleanup (detach_outcome destroy_outcome : Except FlockerError Unit) :
    Except FlockerError Unit :=
  match detach_outcome with
  | Except.ok _ => cleanupDestroyStep destroy_outcome
  | Except.error FlockerError.unattachedVolume =>
    cleanupDestroyStep destroy_outcome
  | Except.error e => Except.error e

/-- The status sequence of the §8 conflict scenario: the attach starts
from `available`, passes through `attaching`, then settles back to
`available` because the device path was already occupied. -/
def conflictStatuses (n : Nat) : String :=
  List.getD ["available", "attaching"] n "available"

/-- The status sequence the provider reports while a fresh volume
becomes available: `creating`, then `available`. -/
def createStatuses (n : Nat) : String :=
  List.getD ["creating"] n "available"

/-- The status sequence of a successful attach: `available`,
`attaching`, then `in-use`. -/
def attachStatuses (n : Nat) : String :=
  List.getD ["available", "attaching"] n "in-use"

/-- A volume of this cluster, as `create_volume` makes it. -/
def sampleFlockerVolume : CinderVolume :=
  create_volume ApiVersion.v1 "cluster-a" "dataset-1" "vol-1" 1

/-- A syntactically well-formed Flocker-style volume created by a
different cluster sharing the same cloud account. -/
def foreignClusterVolume : CinderVolume :=
  { id := "vol-foreign"
    status := "available"
    display_name := some "flocker-deadbeef"
    name := none
    metadata := [(CLUSTER_ID_LABEL, "cluster-b")]
    attached_to := none
    size := 1 }

/-- A raw untagged cinder volume created out-of-band. -/
def rawCinderVolume : CinderVolume :=
  { id := "vol-raw"
    status := "available"
    display_name := none
    name := none
    metadata := []
    attached_to := none
    size := 1 }

/-- An attached provider volume created out-of-band, without the
Flocker naming convention. -/
def outOfBandVolume : CinderVolume :=
  { id := "8db7c50b-7c54-4bd8-8b0a-66ea4ce35a4a"
    status := "in-use"
    display_name := some "manual-disk"
    name := none
    metadata := []
    attached_to := some "server-1"
    size := 1 }

/-- A cluster volume the provider reports as attached (`in-use`), with an
identifier longer than the 20-character symlink truncation. -/
def inUseVolume : CinderVolume :=
  { id := "5e18919e-65ca-4766-a5b5-000000000001"
    status := "in-use"
    display_name := some "flocker-ds"
    name := none
    metadata := [(CLUSTER_ID_LABEL, "cluster-a")]
    attached_to := some "server-1"
    size := 1 }

/-- A device namespace with an unrelated, non-provider-managed disk
(`/dev/vdc`) already attached, and no by-id symlinks materialized. -/
def beforeDevices : DeviceState :=
  { nodes := ["/dev/vda", "/dev/vdc"]
    links := [] }

/-- One successful poll of the waiter loop: when the observed status is
the desired one, the loop returns it with no further sleeping. -/
theorem waitLoop_desired (statuses : Nat → String) (desired : String)
    (time_limit interval fuel : Nat) (transient : List String)
    (polls elapsed : Nat) (hd : statuses polls = desired) :
    waitLoop statuses desired time_limit interval (fuel + 1) transient
        polls elapsed =
      some ⟨Except.ok (statuses polls), polls + 1, elapsed⟩ := by
  simp [waitLoop, hd]

/-- C1: whenever a poll of `wait_for_volume_state` observes a status that
is neither the desired state nor in the (current) transient set, the loop
fails at that very poll with `UnexpectedState` carrying the observed
status, with the elapsed time unchanged (no sleep, no further poll); in
particular the conflict scenario — an attach whose volume settles back to
`available` after passing through `attaching` — surfaces
`UnexpectedState{observed = "available"}` after three polls and two
seconds, not `Timeout`. -/
theorem C1_unexpectedState_fails_immediately :
    (∀ (statuses : Nat → String) (desired : String)
        (time_limit interval fuel : Nat) (transient : List String)
        (polls elapsed : Nat),
      statuses polls ≠ desired →
      statuses polls ∉ transient →
      waitLoop statuses desired time_limit interval (fuel + 1) transient
          polls elapsed =
        some ⟨Except.error (FlockerError.unexpectedState (statuses polls)),
              polls + 1, elapsed⟩) ∧
    wait_for_volume_state conflictStatuses "in-use"
        ["available", "attaching"] 60 1 100 =
      some ⟨Except.error (FlockerError.unexpectedState "available"),
            3, 2⟩ := by
  constructor
  · intro statuses desired time_limit interval fuel transient polls elapsed
      hd ht
    simp [waitLoop, hd, ht]
  · decide

/-- C1, witnessed at the third poll of the conflict scenario: at that
poll the volume has settled back to `available` while the remaining
transient path is `["attaching"]`, and the loop fails there with
`UnexpectedState` and two seconds elapsed. -/
theorem C1_unexpectedState_fails_immediately_witness :
    waitLoop conflictStatuses "in-use" 60 1 98 ["attaching"] 2 2 =
      some ⟨Except.error (FlockerError.unexpectedState (conflictStatuses 2)),
            3, 2⟩ :=
  C1_unexpectedState_fails_immediately.1 conflictStatuses "in-use" 60 1 97
    ["attaching"] 2 2 (by decide) (by decide)

/-- With a no-op delete the volume never disappears; starting `k` clock
units past `start` with `n` sleeps of `d` units left before the limit
`T` is reached exactly, the destroy loop fails with `Timeout{T}` and
leaves the clock at exactly `start + T`. -/
theorem destroyLoop_exact_timeout (T d : Nat) (hd : 1 ≤ d) :
    ∀ (n k start polls fuel : Nat), k + n * d = T → n + 1 ≤ fuel →
      destroyLoop (fun _ => true) T d start fuel polls ⟨start + k⟩ =
        some (Except.error (FlockerError.timeout T), ⟨start + T⟩) := by
  intro n
  induction n with
  | zero =>
    intro k start polls fuel hk hfuel
    match fuel, hfuel with
    | fuel + 1, _ =>
      simp only [Nat.zero_mul, Nat.add_zero] at hk
      subst hk
      simp [destroyLoop, FakeTime.time, Nat.add_sub_cancel_left]
  | succ n ih =>
    intro k start polls fuel hk hfuel
    match fuel, hfuel with
    | fuel + 1, hfuel =>
      have hlt : k < T := by
        have h1 : 1 ≤ (n + 1) * d := by
          calc 1 = 1 * 1 := by simp
          _ ≤ (n + 1) * d := Nat.mul_le_mul (Nat.le_add_left 1 n) hd
        omega
      have hk2 : (k + d) + n * d = T := by
        have : (n + 1) * d = n * d + d := Nat.succ_mul n d
        omega
      have step :
          destroyLoop (fun _ => true) T d start (fuel + 1) polls
              ⟨start + k⟩ =
            destroyLoop (fun _ => true) T d start fuel (polls + 1)
              ⟨start + (k + d)⟩ := by
        simp [destroyLoop, FakeTime.time, FakeTime.sleep,
          Nat.add_sub_cancel_left, hlt, Nat.add_assoc]
      rw [step]
      exact ih (k + d) start (polls + 1) fuel hk2 (Nat.lt_succ_iff.mp hfuel)

/-- C2: `destroy_volume` with a no-op provider delete (the volume never
leaves the listing) and the deterministic `FakeTime` clock, polling in
fixed increments `d ≥ 1` whose sum hits the configured timeout exactly
(`d` divides the timeout), fails with `Timeout` whose elapsed field
equals exactly the configured timeout, with the clock standing at exactly
`start + timeout` when the failure is raised. -/
theorem C2_destroy_timeout_exact (vols : List CinderVolume)
    (blockdevice_id : String) (T d fuel c0 : Nat)
    (hknown : vols.any (fun v => v.id == blockdevice_id) = true)
    (hd : 1 ≤ d) (hdvd : d ∣ T) (hfuel : T + 1 ≤ fuel) :
    destroy_volume vols (fun _ => true) T d fuel ⟨c0⟩ blockdevice_id =
      some (Except.error (FlockerError.timeout T), ⟨c0 + T⟩) := by
  obtain ⟨n, hn⟩ := hdvd
  have hTn : 0 + n * d = T := by
    simp [hn, Nat.mul_comm]
  have hnfuel : n + 1 ≤ fuel := by
    have : n ≤ n * d := Nat.le_mul_of_pos_right n hd
    omega
  have h := destroyLoop_exact_timeout T d hd n 0 c0 0 fuel hTn hnfuel
  simp only [Nat.add_zero] at h
  simp [destroy_volume, hknown, FakeTime.time, h]

/-- C2, witnessed on the `test_destroy_timesout` configuration: timeout
8, clock starting at 0, increments of 1; the failure is
`Timeout{elapsed = 8}` — not 7 or 9 — with the clock at exactly 8. -/
theorem C2_destroy_timeout_exact_witness :
    destroy_volume [sampleFlockerVolume] (fun _ => true) 8 1 9 ⟨0⟩ "vol-1" =
      some (Except.error (FlockerError.timeout 8), ⟨8⟩) :=
  C2_destroy_timeout_exact [sampleFlockerVolume] "vol-1" 8 1 9 0
    (by decide) (by decide) (by decide) (by decide)

/-- C3: `list_volumes` excludes every provider volume whose
cluster-identifying tag does not match the current cluster's identity —
whatever its name looks like — and a listing consisting only of raw
untagged volumes comes back as the empty sequence. -/
theorem C3_foreign_volumes_excluded :
    (∀ (cluster_id : String) (vols : List CinderVolume) (v : CinderVolume),
      clusterTag v ≠ some cluster_id →
      v ∉ list_volumes cluster_id vols) ∧
    (∀ (cluster_id : String) (vols : List CinderVolume),
      (∀ v ∈ vols, clusterTag v = none) →
      list_volumes cluster_id vols = []) := by
  constructor
  · intro cluster_id vols v htag hmem
    have h := (List.mem_filter.mp hmem).2
    simp only [_is_cluster_volume, Bool.and_eq_true, beq_iff_eq] at h
    exact htag h.1
  · intro cluster_id vols htag
    refine List.filter_eq_nil_iff.mpr ?_
    intro v hv
    simp only [_is_cluster_volume, Bool.and_eq_true, beq_iff_eq, htag v hv,
      not_and]
    intro h
    cases h

/-- C3, witnessed: a well-formed Flocker-style volume tagged for another
cluster is excluded from `list_volumes`, and a listing holding only a
raw untagged out-of-band volume comes back empty. -/
theorem C3_foreign_volumes_excluded_witness :
    foreignClusterVolume ∉
      list_volumes "cluster-a" [foreignClusterVolume, rawCinderVolume] ∧
    list_volumes "cluster-a" [rawCinderVolume] = [] :=
  ⟨C3_foreign_volumes_excluded.1 "cluster-a"
      [foreignClusterVolume, rawCinderVolume] foreignClusterVolume
      (by decide),
    C3_foreign_volumes_excluded.2 "cluster-a" [rawCinderVolume]
      (by decide)⟩

/-- C4: every volume created through `create_volume(dataset_id, size)`
carries the provider-visible human-readable name
`"flocker-" ++ dataset_id`, under whichever attribute (v1 `display_name`
or v2 `name`) the provider API version exposes. -/
theorem C4_created_volume_name (ver : ApiVersion)
    (cluster_id dataset_id vol_id : String) (size : Nat) :
    NAME_ATTR ver (create_volume ver cluster_id dataset_id vol_id size) =
      some ("flocker-" ++ dataset_id) := by
  cases ver <;> rfl

/-- C5: in the attach scenario, the two device-resolution schemes agree.
The waiter accepts the transition path `creating → available` and then
`available → (attaching) → in-use`; and after the attach materializes one
fresh device node together with its by-id symlink, `get_device_path`
returns exactly the single node that a before/after diff of the device
namespace yields — whatever unrelated (non-provider-managed) devices were
present beforehand. -/
theorem C5_device_path_agrees_with_diff :
    (∀ (vols : List CinderVolume) (st : DeviceState)
        (vol_id new_node : String),
      vols.any (fun v => v.id == vol_id) = true →
      new_node ∉ st.nodes →
      (attachDeviceEffect st vol_id new_node true).nodes.filter
          (fun d => decide (d ∉ st.nodes)) = [new_node] ∧
      get_device_path vols (attachDeviceEffect st vol_id new_node true)
          vol_id = Except.ok new_node) ∧
    wait_for_volume_state createStatuses "available" ["creating"]
        60 1 100 = some ⟨Except.ok "available", 2, 1⟩ ∧
    wait_for_volume_state attachStatuses "in-use"
        ["available", "attaching"] 60 1 100 =
      some ⟨Except.ok "in-use", 3, 2⟩ := by
  refine ⟨?_, by decide, by decide⟩
  intro vols st vol_id new_node hknown hfresh
  constructor
  · have hnil : st.nodes.filter (fun d => decide (d ∉ st.nodes)) = [] := by
      refine List.filter_eq_nil_iff.mpr ?_
      intro d hd
      simp [hd]
    simp [attachDeviceEffect, List.filter_append, hnil, hfresh]
  · simp [get_device_path, attachDeviceEffect, hknown, assocLookup,
      realpath]

/-- C5, witnessed: an unrelated disk `/dev/vdc` is already attached; the
provider attach adds `/dev/vdb` and its symlink; the diff yields exactly
`/dev/vdb` and `get_device_path` returns it too. -/
theorem C5_device_path_agrees_with_diff_witness :
    ((attachDeviceEffect beforeDevices inUseVolume.id
        "/dev/vdb" true).nodes.filter
      (fun d => decide (d ∉ beforeDevices.nodes)) = ["/dev/vdb"] ∧
      get_device_path [inUseVolume]
        (attachDeviceEffect beforeDevices inUseVolume.id
          "/dev/vdb" true) inUseVolume.id = Except.ok "/dev/vdb") ∧
    wait_for_volume_state createStatuses "available" ["creating"]
        60 1 100 = some ⟨Except.ok "available", 2, 1⟩ :=
  ⟨C5_device_path_agrees_with_diff.1 [inUseVolume]
      beforeDevices inUseVolume.id "/dev/vdb"
      (by decide) (by decide),
    C5_device_path_agrees_with_diff.2.1⟩

/-- C6: the best-effort cleanup of `OpenStackFixture` is idempotent under
"already gone": an already-detached volume (`UnattachedVolume` from the
detach step) together with an already-destroyed volume (`UnknownVolume`
from the destroy step) completes without raising, while any other error
from either step propagates unmodified. -/
theorem C6_cleanup_idempotent :
    cleanup (Except.error FlockerError.unattachedVolume)
        (Except.error FlockerError.unknownVolume) = Except.ok () ∧
    (∀ (e : FlockerError) (d : Except FlockerError Unit),
      e ≠ FlockerError.unattachedVolume →
      cleanup (Except.error e) d = Except.error e) ∧
    (∀ (e : FlockerError),
      e ≠ FlockerError.unknownVolume →
      cleanup (Except.ok ()) (Except.error e) = Except.error e) := by
  refine ⟨rfl, ?_, ?_⟩
  · intro e d he
    cases e with
    | timeout elapsed => rfl
    | unexpectedState observed => rfl
    | unattachedVolume => exact absurd rfl he
    | unknownVolume => rfl
    | providerError message => rfl
  · intro e he
    cases e with
    | timeout elapsed => rfl
    | unexpectedState observed => rfl
    | unattachedVolume => rfl
    | unknownVolume => exact absurd rfl he
    | providerError message => rfl

/-- C6, witnessed: the "already gone" pair completes; a `Timeout` from
the detach step and an `UnexpectedState` from the destroy step both
propagate unmodified. -/
theorem C6_cleanup_idempotent_witness :
    cleanup (Except.error FlockerError.unattachedVolume)
        (Except.error FlockerError.unknownVolume) = Except.ok () ∧
    cleanup (Except.error (FlockerError.timeout 5)) (Except.ok ()) =
      Except.error (FlockerError.timeout 5) ∧
    cleanup (Except.ok ())
        (Except.error (FlockerError.unexpectedState "available")) =
      Except.error (FlockerError.unexpectedState "available") :=
  ⟨C6_cleanup_idempotent.1,
    C6_cleanup_idempotent.2.1 (FlockerError.timeout 5) (Except.ok ())
      (by decide),
    C6_cleanup_idempotent.2.2 (FlockerError.unexpectedState "available")
      (by decide)⟩

/-- C7: for a volume the provider reports as `in-use` whose stable by-id
symlink was never materialized on the guest (the attach ran while the
device-naming service was suspended), `get_device_path` fails with
`UnattachedVolume` — an error distinct from `UnknownVolume` — rather
than returning a path. -/
theorem C7_missing_symlink_unattached (vols : List CinderVolume)
    (st : DeviceState) (v : CinderVolume) (new_node : String)
    (hmem : v ∈ vols) (hstatus : v.status = "in-use")
    (hnolink : assocLookup (byIdLinkPath v.id) st.links = none) :
    get_device_path vols (attachDeviceEffect st v.id new_node false) v.id =
      Except.error FlockerError.unattachedVolume ∧
    FlockerError.unattachedVolume ≠ FlockerError.unknownVolume := by
  constructor
  · have hknown : vols.any (fun w => w.id == v.id) = true :=
      List.any_eq_true.mpr ⟨v, hmem, by simp⟩
    simp [get_device_path, attachDeviceEffect, hknown, hnolink]
  · decide

/-- C7, witnessed: the attach of `inUseVolume` ran with udev suspended
over a namespace with no symlinks, and `get_device_path` fails with
`UnattachedVolume`. -/
theorem C7_missing_symlink_unattached_witness :
    get_device_path [inUseVolume]
        (attachDeviceEffect beforeDevices inUseVolume.id "/dev/vdb" false)
        inUseVolume.id = Except.error FlockerError.unattachedVolume ∧
    FlockerError.unattachedVolume ≠ FlockerError.unknownVolume :=
  C7_missing_symlink_unattached [inUseVolume] beforeDevices inUseVolume
    "/dev/vdb" (by decide) (by decide) (by decide)

/-- C8: when the stable symlink scheme is available, `get_device_path`
returns exactly the realpath of the symlink in the device-identity
directory named by the fixed prefix and the first 20 characters of the
volume identifier: the link is `/dev/disk/by-id/virtio-<vol_id[:20]>`
and the returned path is that link's resolved target. -/
theorem C8_symlink_resolution (vols : List CinderVolume)
    (st : DeviceState) (v : CinderVolume) (target : String)
    (hmem : v ∈ vols)
    (hlink : assocLookup (byIdLinkPath v.id) st.links = some target) :
    get_device_path vols st v.id =
      Except.ok (realpath st (byIdLinkPath v.id)) ∧
    realpath st (byIdLinkPath v.id) = target ∧
    byIdLinkPath v.id = "/dev/disk/by-id/virtio-" ++ v.id.take 20 := by
  have hknown : vols.any (fun w => w.id == v.id) = true :=
    List.any_eq_true.mpr ⟨v, hmem, by simp⟩
  refine ⟨?_, ?_, rfl⟩
  · simp [get_device_path, hknown, hlink]
  · simp [realpath, hlink]

set_option maxRecDepth 100000 in
/-- C8, witnessed: `inUseVolume` has a 36-character identifier; its
symlink name truncates the identifier to its first 20 characters and
`get_device_path` returns the link's target `/dev/vdb`. -/
theorem C8_symlink_resolution_witness :
    get_device_path [inUseVolume]
        ⟨["/dev/vda", "/dev/vdb"],
          [("/dev/disk/by-id/virtio-5e18919e-65ca-4766-a", "/dev/vdb")]⟩
        inUseVolume.id =
      Except.ok (realpath
        ⟨["/dev/vda", "/dev/vdb"],
          [("/dev/disk/by-id/virtio-5e18919e-65ca-4766-a", "/dev/vdb")]⟩
        (byIdLinkPath inUseVolume.id)) ∧
    realpath
        ⟨["/dev/vda", "/dev/vdb"],
          [("/dev/disk/by-id/virtio-5e18919e-65ca-4766-a", "/dev/vdb")]⟩
        (byIdLinkPath inUseVolume.id) = "/dev/vdb" ∧
    byIdLinkPath inUseVolume.id =
      "/dev/disk/by-id/virtio-" ++ inUseVolume.id.take 20 :=
  C8_symlink_resolution [inUseVolume]
    ⟨["/dev/vda", "/dev/vdb"],
      [("/dev/disk/by-id/virtio-5e18919e-65ca-4766-a", "/dev/vdb")]⟩
    inUseVolume "/dev/vdb" (by decide) (by decide)

/-- C9: every block-device API operation addressed with a
`blockdevice_id` the provider does not recognize — attach, detach,
destroy, and device-path resolution — fails with `UnknownVolume`. -/
theorem C9_unknown_id_fails (cluster_id : String)
    (vols : List CinderVolume) (blockdevice_id : String)
    (statuses : Nat → String) (present : Nat → Bool) (st : DeviceState)
    (time_limit interval fuel : Nat) (clock : FakeTime)
    (instance_id : String)
    (hunknown : vols.any (fun v => v.id == blockdevice_id) = false) :
    attach_volume vols statuses time_limit interval fuel blockdevice_id
        instance_id = Except.error FlockerError.unknownVolume ∧
    detach_volume cluster_id vols blockdevice_id =
      Except.error FlockerError.unknownVolume ∧
    destroy_volume vols present time_limit interval fuel clock
        blockdevice_id =
      some (Except.error FlockerError.unknownVolume, clock) ∧
    get_device_path vols st blockdevice_id =
      Except.error FlockerError.unknownVolume := by
  have hall := List.any_eq_false.mp hunknown
  refine ⟨?_, ?_, ?_, ?_⟩
  · simp [attach_volume, hunknown]
  · have hfind : (list_volumes cluster_id vols).find?
        (fun v => v.id == blockdevice_id) = none := by
      refine List.find?_eq_none.mpr ?_
      intro v hv
      exact hall v (List.mem_filter.mp hv).1
    simp [detach_volume, hfind]
  · simp [destroy_volume, hunknown]
  · simp [get_device_path, hunknown]

/-- C9, witnessed: a freshly generated random UUID string addressed
against an inventory holding only this cluster's volume makes all four
operations fail with `UnknownVolume`. -/
theorem C9_unknown_id_fails_witness :
    attach_volume [sampleFlockerVolume] attachStatuses 60 1 100
        "11223344-5566-7788-99aa-bbccddeeff00" "server-1" =
      Except.error FlockerError.unknownVolume ∧
    detach_volume "cluster-a" [sampleFlockerVolume]
        "11223344-5566-7788-99aa-bbccddeeff00" =
      Except.error FlockerError.unknownVolume ∧
    destroy_volume [sampleFlockerVolume] (fun _ => true) 8 1 20 ⟨0⟩
        "11223344-5566-7788-99aa-bbccddeeff00" =
      some (Except.error FlockerError.unknownVolume, ⟨0⟩) ∧
    get_device_path [sampleFlockerVolume] beforeDevices
        "11223344-5566-7788-99aa-bbccddeeff00" =
      Except.error FlockerError.unknownVolume :=
  C9_unknown_id_fails "cluster-a" [sampleFlockerVolume]
    "11223344-5566-7788-99aa-bbccddeeff00" attachStatuses (fun _ => true)
    beforeDevices 60 1 100 ⟨0⟩ "server-1" (by decide)

/-- C10: the public `detach_volume` only handles volumes following the
Flocker naming convention: a provider volume created out-of-band without
it is not found (the cluster-filtered resolution fails with
`UnknownVolume`, so no detach is issued), while the lower-level
`_nova_detach`, handed the server id and the raw cinder volume directly,
does issue the detach — and the fixture's cleanup built on that bypass
completes. -/
theorem C10_detach_requires_flocker_name (cluster_id server_id : String)
    (v : CinderVolume) (srv : String)
    (hforeign : _is_cluster_volume cluster_id v = false)
    (hattached : v.attached_to = some srv) :
    detach_volume cluster_id [v] v.id =
      Except.error FlockerError.unknownVolume ∧
    _nova_detach server_id v = Except.ok (server_id, v.id) ∧
    cleanup (Except.map (fun _ => ()) (_nova_detach server_id v))
        (Except.ok ()) = Except.ok () := by
  have hnova : _nova_detach server_id v = Except.ok (server_id, v.id) := by
    simp [_nova_detach, hattached]
  refine ⟨?_, hnova, ?_⟩
  · simp [detach_volume, list_volumes, hforeign]
  · simp [hnova, Except.map, cleanup, cleanupDestroyStep]

/-- C10, witnessed on the out-of-band volume: `detach_volume` does not
recognize it, `_nova_detach` detaches it from `server-1` directly, and
the cleanup built on the bypass completes. -/
theorem C10_detach_requires_flocker_name_witness :
    detach_volume "cluster-a" [outOfBandVolume] outOfBandVolume.id =
      Except.error FlockerError.unknownVolume ∧
    _nova_detach "server-1" outOfBandVolume =
      Except.ok ("server-1", outOfBandVolume.id) ∧
    cleanup (Except.map (fun _ => ())
        (_nova_detach "server-1" outOfBandVolume)) (Except.ok ()) =
      Except.ok () :=
  C10_detach_requires_flocker_name "cluster-a" "server-1" outOfBandVolume
    "server-1" (by decide) (by decide)
